import Mathlib

/-!
Shallow embedding of `src/oauth.rs` from the redlib repository: the OAuth
token lifecycle manager (device-identity generation, the login/refresh
exchange, and the renewal daemon's sleep computation), together with proofs
about it.

Header mappings (Rust `HashMap<String, String>`) are modelled as association
lists with insert-overwrite semantics; the randomness consumed by the device
generator (uuid, pool indices, coin flip) is passed in explicitly; the HTTP
transport is modelled as an oracle value describing the outcome of the one
`client.request` call that `login` performs.
-/

/- ### Constants from the source -/

/-- `static REDDIT_ANDROID_OAUTH_CLIENT_ID: &str` in oauth.rs. -/
def REDDIT_ANDROID_OAUTH_CLIENT_ID : String := "ohXpoqrZYub1kg"

/-- `static REDDIT_IOS_OAUTH_CLIENT_ID: &str` in oauth.rs. -/
def REDDIT_IOS_OAUTH_CLIENT_ID : String := "LNDo9k1o8UAEUw"

/-- `static AUTH_ENDPOINT: &str` in oauth.rs. -/
def AUTH_ENDPOINT : String := "https://accounts.reddit.com"

/-- `static ANDROID_USER_AGENT: [&str; 3]` in oauth.rs. -/
def ANDROID_USER_AGENT : List String :=
  ["Reddit/Version 2023.21.0/Build 956283/Android 13",
   "Reddit/Version 2023.21.0/Build 968223/Android 10",
   "Reddit/Version 2023.21.0/Build 946732/Android 12"]

/-- `static IOS_USER_AGENT: [&str; 3]` in oauth.rs. -/
def IOS_USER_AGENT : List String :=
  ["Reddit/Version 2023.22.0/Build 613580/iOS Version 17.0 (Build 21A5248V)",
   "Reddit/Version 2023.22.0/Build 613580/iOS Version 16.0 (Build 20A5328h)",
   "Reddit/Version 2023.22.0/Build 613580/iOS Version 16.5"]

/-- `static IOS_DEVICES: [&str; 5]` in oauth.rs. -/
def IOS_DEVICES : List String :=
  ["iPhone8,1", "iPhone11,1", "iPhone12,1", "iPhone13,1", "iPhone14,1"]

/- ### Base64 (standard alphabet, with padding), as used by
`general_purpose::STANDARD.encode` in `Oauth::login`. -/

/-- The standard base64 alphabet. -/
def base64Alphabet : List Char :=
  "ABCDEFGHIJKLMNOPQRSTUVWXYZabcdefghijklmnopqrstuvwxyz0123456789+/".data

/-- The base64 digit for a 6-bit value. -/
def b64Digit (n : Nat) : Char := base64Alphabet.getD n 'A'

/-- Standard base64 encoding of a byte list, with `=` padding. -/
def base64Encode : List Nat → String
  | [] => ""
  | [a] =>
    String.mk [b64Digit (a / 4), b64Digit (a % 4 * 16)] ++ "=="
  | [a, b] =>
    String.mk [b64Digit (a / 4), b64Digit (a % 4 * 16 + b / 16),
               b64Digit (b % 16 * 4)] ++ "="
  | a :: b :: c :: rest =>
    String.mk [b64Digit (a / 4), b64Digit (a % 4 * 16 + b / 16),
               b64Digit (b % 16 * 4 + c / 64), b64Digit (c % 64)] ++
    base64Encode rest

/-- Bytes of an ASCII string (all strings involved here are ASCII). -/
def strBytes (s : String) : List Nat := s.data.map Char.toNat

/-- Base64 of an ASCII string. -/
def base64OfString (s : String) : String := base64Encode (strBytes s)

/- ### Header maps: `HashMap<String, String>` as an association list -/

/-- A header mapping: association list, first binding wins on lookup. -/
abbrev HeaderMap : Type := List (String × String)

/-- `HashMap::insert`: overwrite the binding for `k` (dropping every prior
binding of `k`), keeping all other bindings. -/
def hmInsert (m : HeaderMap) (k v : String) : HeaderMap :=
  (List.filter (fun kv => kv.1 ≠ k) m) ++ [(k, v)]

/-- `HashMap::get`-style lookup on the association list. -/
def hmLookup (m : HeaderMap) (k : String) : Option String :=
  match m with
  | [] => none
  | (k0, v0) :: rest => if k0 = k then some v0 else hmLookup rest k

/- ### Device identity generation (`struct Device` and `impl Device`) -/

/-- `struct Device` in oauth.rs. -/
structure Device where
  oauth_id : String
  headers : HeaderMap
  deriving DecidableEq

/-- The randomness consumed by `Device::random`: the `fastrand::bool()` coin
picks the variant; each variant consumes a fresh uuid string and uniform
pool indices (`fastrand::usize(..len)`). -/
inductive DeviceRand where
  | android (uuid : String) (agentIdx : Fin 3)
  | ios (uuid : String) (agentIdx : Fin 3) (deviceIdx : Fin 5)
  deriving DecidableEq

/-- `Device::android` in oauth.rs, with the uuid and user-agent index passed
in for the random choices. -/
def Device.android (uuid : String) (agentIdx : Fin 3) : Device :=
  { oauth_id := REDDIT_ANDROID_OAUTH_CLIENT_ID,
    headers :=
      [("Client-Vendor-Id", uuid),
       ("X-Reddit-Device-Id", uuid),
       ("User-Agent", ANDROID_USER_AGENT.getD agentIdx.val "")] }

/-- `Device::ios` in oauth.rs, with the uuid, user-agent index and device
index passed in for the random choices. -/
def Device.ios (uuid : String) (agentIdx : Fin 3) (deviceIdx : Fin 5) : Device :=
  { oauth_id := REDDIT_IOS_OAUTH_CLIENT_ID,
    headers :=
      [("X-Reddit-DPR", "2"),
       ("Device-Name", IOS_DEVICES.getD deviceIdx.val ""),
       ("X-Reddit-Device-Id", uuid),
       ("User-Agent", IOS_USER_AGENT.getD agentIdx.val ""),
       ("Client-Vendor-Id", uuid)] }

/-- `Device::random` in oauth.rs: the coin flip selects the variant; the
variant's own random draws are carried by `DeviceRand`. -/
def Device.random : DeviceRand → Device
  | .android uuid i => Device.android uuid i
  | .ios uuid i j => Device.ios uuid i j

/- ### JSON values, as far as `login` inspects them -/

/-- The fragment of `serde_json::Value` that `login` inspects: string fields
(`as_str`), unsigned integers below `2^64` (`as_u64`), and everything else. -/
inductive JsonVal where
  | jstr (s : String)
  | jnum (n : Nat)
  | jother
  deriving DecidableEq

/-- `Value::as_str`. -/
def JsonVal.asStr : JsonVal → Option String
  | .jstr s => some s
  | _ => none

/-- `Value::as_u64`: succeeds only on an unsigned integer fitting `u64`. -/
def JsonVal.asU64 : JsonVal → Option Nat
  | .jnum n => if n < 2 ^ 64 then some n else none
  | _ => none

/-- `Value::get` on the parsed body object. -/
def jsonGet (fields : List (String × JsonVal)) (k : String) : Option JsonVal :=
  match fields with
  | [] => none
  | (k0, v0) :: rest => if k0 = k then some v0 else jsonGet rest k

/- ### The transport oracle: what the one `client.request` call returns -/

/-- The response `login` may receive: the optional `x-reddit-loid` header and
the body, `none` when the bytes cannot be decoded as a JSON object
(`to_bytes`/`from_slice` failure, or a non-object value on which `get`
yields nothing). -/
structure Response where
  loid : Option String
  bodyFields : Option (List (String × JsonVal))
  deriving DecidableEq

/-- Outcome of the transport call: `fail` models `client.request(..)` (or
awaiting it) returning an error; `ok` carries the response. -/
inductive Transport where
  | fail
  | ok (resp : Response)
  deriving DecidableEq

/- ### Token client state (`struct Oauth`) -/

/-- `struct Oauth` in oauth.rs. -/
structure OauthState where
  headers_map : HeaderMap
  token : String
  expires_in : Nat
  device : Device
  deriving DecidableEq

/-- `Oauth::new`: generate a device and copy its headers. -/
def Oauth.new (r : DeviceRand) : OauthState :=
  let device := Device.random r
  { headers_map := device.headers,
    token := "",
    expires_in := 0,
    device := device }

/- ### The outbound request built by `login` (lines 54–83) -/

/-- The request shape `login` hands to the transport. -/
structure OutRequest where
  method : String
  url : String
  headers : HeaderMap
  body : String
  deriving DecidableEq

/-- `json!({"scopes": ["*","email","pii"]}).to_string()`. -/
def scopesBody : String := "\x7b\"scopes\":[\"*\",\"email\",\"pii\"]\x7d"

/-- The outbound request of `Oauth::login`: POST to
`AUTH_ENDPOINT ++ "/api/access_token"`, every stored header except
`Authorization`, then `Authorization: Basic base64(oauth_id ++ ":")`, with
the fixed scopes body. -/
def buildLoginRequest (hm : HeaderMap) (oauthId : String) : OutRequest :=
  { method := "POST",
    url := AUTH_ENDPOINT ++ "/api/access_token",
    headers :=
      (List.filter (fun kv => kv.1 ≠ "Authorization") hm) ++
      [("Authorization", "Basic " ++ base64OfString (oauthId ++ ":"))],
    body := scopesBody }

/-- The request `login` would send from a given state. -/
def loginRequest (s : OauthState) : OutRequest :=
  buildLoginRequest s.headers_map s.device.oauth_id

/- ### `Oauth::login` (lines 52–110), `Oauth::refresh` (lines 112–118) -/

/-- `Oauth::login`, with the transport outcome supplied as an oracle.
Returns the Rust `Option<()>` result together with the post-state. The
mutation order mirrors the source exactly: the `x-reddit-loid` merge happens
right after the response arrives (line 93–95), `self.token` is written
before `expires_in` is even looked up (lines 103–104), and the
`Authorization` header is written last (line 105). -/
def login (s : OauthState) (t : Transport) : Option Unit × OauthState :=
  match t with
  | .fail => (none, s)
  | .ok resp =>
    let s1 :=
      match resp.loid with
      | some v => { s with headers_map := hmInsert s.headers_map "x-reddit-loid" v }
      | none => s
    match resp.bodyFields with
    | none => (none, s1)
    | some fields =>
      match (jsonGet fields "access_token").bind JsonVal.asStr with
      | none => (none, s1)
      | some tok =>
        let s2 := { s1 with token := tok }
        match (jsonGet fields "expires_in").bind JsonVal.asU64 with
        | none => (none, s2)
        | some e =>
          (some (),
           { s2 with
             expires_in := e,
             headers_map := hmInsert s2.headers_map "Authorization" ("Bearer " ++ tok) })

/-- `Oauth::refresh`: "Refresh is actually just a subsequent login with the
same headers … we just call login again." -/
def refresh (s : OauthState) (t : Transport) : Option Unit × OauthState :=
  login s t

/- ### `token_daemon` sleep computation (line 136) -/

/-- `2^64`, the modulus of Rust `u64` arithmetic. -/
def U64_MOD : Nat := 2 ^ 64

/-- The daemon's sleep computation `Duration::from_secs(expires_in - 120)`:
a raw `u64` subtraction, which wraps modulo `2^64` when `expires_in < 120`
(release-profile semantics; debug builds panic). There is no error path in
the source. -/
def daemonSleepSecs (expires_in : Nat) : Nat :=
  (expires_in + U64_MOD - 120) % U64_MOD

/- ### Traces of exchanges (for the reachable-state claims) -/

/-- Run a sequence of login/refresh exchanges from a freshly constructed
client (`refresh` delegates to `login`, so one step function covers both). -/
def runTrace (r : DeviceRand) (ts : List Transport) : OauthState :=
  ts.foldl (fun s t => (login s t).2) (Oauth.new r)

/-- Whether a single exchange succeeds from a given state. -/
def loginOk (s : OauthState) (t : Transport) : Bool :=
  (login s t).1.isSome

/-- Whether any exchange in the trace succeeds. -/
def anySuccess (r : DeviceRand) : List Transport → Bool :=
  go (Oauth.new r)
where
  go : OauthState → List Transport → Bool
    | _, [] => false
    | s, t :: ts => loginOk s t || go (login s t).2 ts

/-- The `access_token` string that `login` would extract from a transport
outcome, when the body decodes and carries a string `access_token` field
(this is the point after which `self.token` has been overwritten, whether or
not the call then succeeds). -/
def extractedToken : Transport → Option String
  | .fail => none
  | .ok resp =>
    match resp.bodyFields with
    | none => none
    | some fields => (jsonGet fields "access_token").bind JsonVal.asStr

/- ### Helper lemmas about the header map and `login` -/

theorem hmLookup_hmInsert_self (m : HeaderMap) (k v : String) :
    hmLookup (hmInsert m k v) k = some v := by
  induction m with
  | nil => simp [hmInsert, hmLookup]
  | cons kv m ih =>
    rcases kv with ⟨k0, v0⟩
    by_cases h : k0 = k
    · simpa [hmInsert, List.filter_cons, h] using ih
    · simpa [hmInsert, hmLookup, List.filter_cons, h] using ih

theorem hmLookup_hmInsert_ne (m : HeaderMap) (k v k' : String) (h : k' ≠ k) :
    hmLookup (hmInsert m k v) k' = hmLookup m k' := by
  induction m with
  | nil => simp [hmInsert, hmLookup, Ne.symm h]
  | cons kv m ih =>
    rcases kv with ⟨k0, v0⟩
    by_cases hk : k0 = k
    · subst hk
      simpa [hmInsert, hmLookup, List.filter_cons, Ne.symm h] using ih
    · by_cases hk' : k0 = k'
      · subst hk'
        simp [hmInsert, hmLookup, List.filter_cons, hk, h]
      · simpa [hmInsert, hmLookup, List.filter_cons, hk, hk'] using ih

theorem hmLookup_mem {m : HeaderMap} {k v : String}
    (h : hmLookup m k = some v) : (k, v) ∈ m := by
  induction m with
  | nil => simp [hmLookup] at h
  | cons kv m ih =>
    rcases kv with ⟨k0, v0⟩
    by_cases hk : k0 = k
    · simp [hmLookup, hk] at h
      subst hk h
      exact List.mem_cons_self _ _
    · simp [hmLookup, hk] at h
      exact List.mem_cons_of_mem _ (ih h)

/-- After any exchange, `token` holds the `access_token` string extracted
from the response when one was decoded, and is untouched otherwise —
whether or not the call succeeded. -/
theorem login_snd_token (s : OauthState) (t : Transport) :
    (login s t).2.token = (extractedToken t).getD s.token := by
  cases t with
  | fail => simp [login, extractedToken]
  | ok resp =>
    rcases resp with ⟨lo, body⟩
    cases body with
    | none => cases lo <;> simp [login, extractedToken]
    | some fields =>
      cases htok : (jsonGet fields "access_token").bind JsonVal.asStr with
      | none => cases lo <;> simp [login, extractedToken, htok]
      | some tok =>
        cases hexp : (jsonGet fields "expires_in").bind JsonVal.asU64 with
        | none => cases lo <;> simp [login, extractedToken, htok, hexp]
        | some e => cases lo <;> simp [login, extractedToken, htok, hexp]

/-- The `x-reddit-loid` entry after an exchange that got a response: the
response's value when it carried the header, the old binding otherwise. -/
theorem login_loid_lookup (s : OauthState) (resp : Response) :
    hmLookup (login s (.ok resp)).2.headers_map "x-reddit-loid" =
      match resp.loid with
      | some v => some v
      | none => hmLookup s.headers_map "x-reddit-loid" := by
  rcases resp with ⟨lo, body⟩
  have hne : ("x-reddit-loid" : String) ≠ "Authorization" := by decide
  cases body with
  | none =>
    cases lo with
    | none => simp [login]
    | some v => simp [login, hmLookup_hmInsert_self]
  | some fields =>
    cases htok : (jsonGet fields "access_token").bind JsonVal.asStr with
    | none =>
      cases lo with
      | none => simp [login, htok]
      | some v => simp [login, htok, hmLookup_hmInsert_self]
    | some tok =>
      cases hexp : (jsonGet fields "expires_in").bind JsonVal.asU64 with
      | none =>
        cases lo with
        | none => simp [login, htok, hexp]
        | some v => simp [login, htok, hexp, hmLookup_hmInsert_self]
      | some e =>
        cases lo with
        | none => simp [login, htok, hexp, hmLookup_hmInsert_ne _ _ _ _ hne]
        | some v =>
          simp [login, htok, hexp, hmLookup_hmInsert_ne _ _ _ _ hne,
                hmLookup_hmInsert_self]

/- ### Claim C1 (corrected) -/

/-- C1 (as stated) is false: a failing exchange can mutate Token State.
With a response carrying an `x-reddit-loid` header and a body holding
`access_token` but no `expires_in`, `login` returns failure yet the
post-state differs from the pre-state (the loid entry was merged and
`token` was overwritten before the missing field was noticed). -/
theorem c1_counterexample :
    (login (Oauth.new (.android "u" 0))
        (.ok ⟨some "xyz", some [("access_token", .jstr "abc123")]⟩)).1 = none ∧
    (login (Oauth.new (.android "u" 0))
        (.ok ⟨some "xyz", some [("access_token", .jstr "abc123")]⟩)).2 ≠
      Oauth.new (.android "u" 0) := by
  constructor
  · decide
  · decide

/-- C1 (amended): on every failure of `login` — transport failure,
undecodable body, or a missing/mistyped `access_token`/`expires_in` field —
`expires_in` and the device are exactly what they were before the call, and
so is every header entry other than `x-reddit-loid`; `token` is unchanged
unless the body decoded with a string `access_token` field, in which case
`token` holds that string even though the call failed. -/
theorem c1_failure_mutation_bound (s : OauthState) (t : Transport)
    (hfail : (login s t).1 = none) :
    (login s t).2.expires_in = s.expires_in ∧
    (login s t).2.device = s.device ∧
    (∀ k, k ≠ "x-reddit-loid" →
      hmLookup (login s t).2.headers_map k = hmLookup s.headers_map k) ∧
    (login s t).2.token = (extractedToken t).getD s.token := by
  refine ⟨?_, ?_, ?_, login_snd_token s t⟩ <;> revert hfail <;>
  · cases t with
    | fail => intro hfail; first | rfl | (intro k hk; rfl)
    | ok resp =>
      rcases resp with ⟨lo, body⟩
      cases body with
      | none =>
        cases lo with
        | none => intro hfail; first | rfl | (intro k hk; rfl)
        | some v =>
          intro hfail
          first
          | (intro k hk; simp [login, hmLookup_hmInsert_ne _ _ _ _ hk])
          | rfl
      | some fields =>
        cases htok : (jsonGet fields "access_token").bind JsonVal.asStr with
        | none =>
          cases lo with
          | none => intro hfail; simp [login, htok]
          | some v =>
            intro hfail
            first
            | (intro k hk; simp [login, htok, hmLookup_hmInsert_ne _ _ _ _ hk])
            | (simp [login, htok])
        | some tok =>
          cases hexp : (jsonGet fields "expires_in").bind JsonVal.asU64 with
          | none =>
            cases lo with
            | none => intro hfail; simp [login, htok, hexp]
            | some v =>
              intro hfail
              first
              | (intro k hk; simp [login, htok, hexp, hmLookup_hmInsert_ne _ _ _ _ hk])
              | (simp [login, htok, hexp])
          | some e =>
            intro hfail
            cases lo <;> simp [login, htok, hexp] at hfail

/-- Witness for `c1_failure_mutation_bound` at a concrete failing exchange. -/
theorem c1_witness :
    (login (Oauth.new (.ios "w" 1 2))
        (.ok ⟨some "L", some [("access_token", .jstr "tk")]⟩)).1 = none ∧
    (login (Oauth.new (.ios "w" 1 2))
        (.ok ⟨some "L", some [("access_token", .jstr "tk")]⟩)).2.expires_in =
      (Oauth.new (.ios "w" 1 2)).expires_in ∧
    hmLookup (login (Oauth.new (.ios "w" 1 2))
        (.ok ⟨some "L", some [("access_token", .jstr "tk")]⟩)).2.headers_map
        "Authorization" =
      hmLookup (Oauth.new (.ios "w" 1 2)).headers_map "Authorization" :=
  ⟨by decide,
   (c1_failure_mutation_bound (Oauth.new (.ios "w" 1 2))
      (.ok ⟨some "L", some [("access_token", .jstr "tk")]⟩) (by decide)).1,
   (c1_failure_mutation_bound (Oauth.new (.ios "w" 1 2))
      (.ok ⟨some "L", some [("access_token", .jstr "tk")]⟩)
      (by decide)).2.2.1 "Authorization" (by decide)⟩

/- ### Claim C2 (confirmed) -/

/-- C2: when the response body carries string `access_token = tok` and
unsigned-integer `expires_in = e`, `login` returns success with
`token = tok`, `expires_in = e`, and the stored `Authorization` header equal
to `"Bearer " ++ tok`. -/
theorem c2_success_updates (s : OauthState) (lo : Option String)
    (fields : List (String × JsonVal)) (tok : String) (e : Nat)
    (htok : jsonGet fields "access_token" = some (.jstr tok))
    (hexp : jsonGet fields "expires_in" = some (.jnum e))
    (he : e < 2 ^ 64) :
    (login s (.ok ⟨lo, some fields⟩)).1 = some () ∧
    (login s (.ok ⟨lo, some fields⟩)).2.token = tok ∧
    (login s (.ok ⟨lo, some fields⟩)).2.expires_in = e ∧
    hmLookup (login s (.ok ⟨lo, some fields⟩)).2.headers_map "Authorization" =
      some ("Bearer " ++ tok) := by
  have he' : e < 18446744073709551616 := by simpa using he
  cases lo <;>
    simp [login, htok, hexp, JsonVal.asStr, JsonVal.asU64, he, he',
          hmLookup_hmInsert_self]

/-- Witness for `c2_success_updates`: the spec's own example
`{"access_token":"abc123","expires_in":3600}`. -/
theorem c2_witness :
    (login (Oauth.new (.android "u" 0))
        (.ok ⟨none, some [("access_token", .jstr "abc123"),
                          ("expires_in", .jnum 3600)]⟩)).1 = some () ∧
    (login (Oauth.new (.android "u" 0))
        (.ok ⟨none, some [("access_token", .jstr "abc123"),
                          ("expires_in", .jnum 3600)]⟩)).2.token = "abc123" ∧
    (login (Oauth.new (.android "u" 0))
        (.ok ⟨none, some [("access_token", .jstr "abc123"),
                          ("expires_in", .jnum 3600)]⟩)).2.expires_in = 3600 ∧
    hmLookup (login (Oauth.new (.android "u" 0))
        (.ok ⟨none, some [("access_token", .jstr "abc123"),
                          ("expires_in", .jnum 3600)]⟩)).2.headers_map
        "Authorization" = some ("Bearer " ++ "abc123") :=
  c2_success_updates (Oauth.new (.android "u" 0)) none
    [("access_token", .jstr "abc123"), ("expires_in", .jnum 3600)]
    "abc123" 3600 (by decide) (by decide) (by norm_num)

/- ### Claim C3 (code_bug) -/

/-- C3: the source does NOT treat `expires_in <= 120` as an error: the
daemon's sleep computation is a raw `u64` subtraction, so at
`expires_in = 60` it wraps to `2^64 - 60` seconds (release profile; debug
builds panic) instead of signalling anything. -/
theorem c3_underflow_wraps : daemonSleepSecs 60 = U64_MOD - 60 := by
  norm_num [daemonSleepSecs, U64_MOD]

/- ### Claim C5 (confirmed) -/

/-- C5: `refresh` performs exactly the same exchange as `login`: from any
state and any transport outcome it returns the same result and the same
post-state (the source delegates directly; both send `loginRequest s`). -/
theorem c5_refresh_eq_login :
    ∀ (s : OauthState) (t : Transport), refresh s t = login s t :=
  fun _ _ => rfl

/- ### Claim C7 (confirmed) -/

/-- C7: for every `u64` expiry strictly above the 120-second margin, the
daemon's computed sleep is exactly `expires_in - 120` seconds. -/
theorem c7_sleep_duration (e : Nat) (hlt : e < U64_MOD) (h : 120 < e) :
    daemonSleepSecs e = e - 120 := by
  have h64 : U64_MOD = 18446744073709551616 := by norm_num [U64_MOD]
  simp only [daemonSleepSecs, h64] at *
  omega

/-- Witness for `c7_sleep_duration`: expiry 3600 sleeps 3480 seconds. -/
theorem c7_witness : daemonSleepSecs 3600 = 3480 :=
  c7_sleep_duration 3600 (by norm_num [U64_MOD]) (by norm_num)

/- ### Claim C4 (confirmed) -/

/-- C4: the outbound request is a POST to `/api/access_token` on the fixed
authority; its headers are exactly the stored headers minus any existing
`Authorization` entry plus `Authorization: Basic base64(client_id ++ ":")`;
its body is the fixed three-scope JSON object. -/
theorem c4_request_shape (hm : HeaderMap) (oid : String) :
    (buildLoginRequest hm oid).method = "POST" ∧
    (buildLoginRequest hm oid).url =
      "https://accounts.reddit.com/api/access_token" ∧
    (buildLoginRequest hm oid).body =
      "\x7b\"scopes\":[\"*\",\"email\",\"pii\"]\x7d" ∧
    ∀ k v, ((k, v) ∈ (buildLoginRequest hm oid).headers ↔
      (((k, v) ∈ hm ∧ k ≠ "Authorization") ∨
       (k = "Authorization" ∧ v = "Basic " ++ base64OfString (oid ++ ":")))) := by
  refine ⟨rfl, rfl, rfl, fun k v => ?_⟩
  simp [buildLoginRequest, List.mem_append, List.mem_filter, Prod.ext_iff]

/- ### Claim C6 (corrected) -/

/-- C6 (as stated) is false: after one exchange whose response decodes a
string `access_token` but lacks `expires_in`, no successful login has
completed, yet `token` is the non-empty decoded string. -/
theorem c6_counterexample :
    ¬(((runTrace (.android "c" 1)
          [.ok ⟨none, some [("access_token", .jstr "abc")]⟩]).token = "") ↔
      anySuccess (.android "c" 1)
          [.ok ⟨none, some [("access_token", .jstr "abc")]⟩] = false) := by
  decide

/-- Folding exchanges over any start state: the token is empty at the end
iff it was empty at the start and no response in the trace decoded a string
`access_token` (given that no decoded `access_token` is the empty string). -/
theorem trace_token_empty_iff (ts : List Transport) :
    ∀ s : OauthState, (∀ t ∈ ts, extractedToken t ≠ some "") →
      ((ts.foldl (fun s t => (login s t).2) s).token = "" ↔
        (s.token = "" ∧ ∀ t ∈ ts, extractedToken t = none)) := by
  induction ts with
  | nil => intro s _; simp
  | cons t ts ih =>
    intro s hne
    have hstep : (login s t).2.token = (extractedToken t).getD s.token :=
      login_snd_token s t
    have hts : ∀ t' ∈ ts, extractedToken t' ≠ some "" :=
      fun t' ht' => hne t' (List.mem_cons_of_mem _ ht')
    rw [List.foldl_cons, ih (login s t).2 hts]
    cases hx : extractedToken t with
    | none => simp [hstep, hx, List.forall_mem_cons]
    | some tok =>
      have htok : tok ≠ "" := by
        intro h
        exact hne t (List.mem_cons_self _ _) (by rw [hx, h])
      simp [hstep, hx, htok, List.forall_mem_cons]

/-- C6 (amended): in every reachable state, `token` is empty iff no exchange
so far has decoded a string `access_token` field from its response —
reaching the extraction step is what matters, not completing successfully —
provided the service never returns an empty `access_token` string. -/
theorem c6_token_empty_iff_no_extraction (r : DeviceRand) (ts : List Transport)
    (hne : ∀ t ∈ ts, extractedToken t ≠ some "") :
    ((runTrace r ts).token = "" ↔ ∀ t ∈ ts, extractedToken t = none) := by
  have h0 : (Oauth.new r).token = "" := by cases r <;> rfl
  unfold runTrace
  rw [trace_token_empty_iff ts (Oauth.new r) hne]
  simp [h0]

/-- Witness for `c6_token_empty_iff_no_extraction`: one successful exchange
with a non-empty token; both sides of the iff are false. -/
theorem c6_witness :
    ((runTrace (.ios "z" 0 1)
        [.ok ⟨none, some [("access_token", .jstr "abc123"),
                          ("expires_in", .jnum 3600)]⟩]).token = "" ↔
      ∀ t ∈ [Transport.ok ⟨none, some [("access_token", .jstr "abc123"),
                                       ("expires_in", .jnum 3600)]⟩],
        extractedToken t = none) :=
  c6_token_empty_iff_no_extraction (.ios "z" 0 1)
    [.ok ⟨none, some [("access_token", .jstr "abc123"),
                      ("expires_in", .jnum 3600)]⟩]
    (by decide)

/- ### Claim C8 (confirmed) -/

/-- C8: every generated device identity has a non-empty header mapping whose
`User-Agent` is drawn from the 3-element pool of its platform and whose
client id is the fixed constant of its platform; the android variant yields
exactly 3 distinct entries; the ios variant yields exactly 5 distinct
entries including a `Device-Name` from the fixed 5-element pool and the
fixed `X-Reddit-DPR` density field. -/
theorem c8_device_identity :
    ANDROID_USER_AGENT.length = 3 ∧ IOS_USER_AGENT.length = 3 ∧
    IOS_DEVICES.length = 5 ∧
    (∀ (uuid : String) (i : Fin 3),
      (Device.random (.android uuid i)).headers ≠ [] ∧
      (Device.random (.android uuid i)).oauth_id =
        REDDIT_ANDROID_OAUTH_CLIENT_ID ∧
      hmLookup (Device.random (.android uuid i)).headers "User-Agent" =
        some (ANDROID_USER_AGENT.getD i.val "") ∧
      ANDROID_USER_AGENT.getD i.val "" ∈ ANDROID_USER_AGENT ∧
      (Device.random (.android uuid i)).headers.length = 3 ∧
      ((Device.random (.android uuid i)).headers.map Prod.fst).Nodup) ∧
    (∀ (uuid : String) (i : Fin 3) (j : Fin 5),
      (Device.random (.ios uuid i j)).headers ≠ [] ∧
      (Device.random (.ios uuid i j)).oauth_id = REDDIT_IOS_OAUTH_CLIENT_ID ∧
      hmLookup (Device.random (.ios uuid i j)).headers "User-Agent" =
        some (IOS_USER_AGENT.getD i.val "") ∧
      IOS_USER_AGENT.getD i.val "" ∈ IOS_USER_AGENT ∧
      hmLookup (Device.random (.ios uuid i j)).headers "Device-Name" =
        some (IOS_DEVICES.getD j.val "") ∧
      IOS_DEVICES.getD j.val "" ∈ IOS_DEVICES ∧
      hmLookup (Device.random (.ios uuid i j)).headers "X-Reddit-DPR" =
        some "2" ∧
      (Device.random (.ios uuid i j)).headers.length = 5 ∧
      ((Device.random (.ios uuid i j)).headers.map Prod.fst).Nodup) := by
  have handKeys : (["Client-Vendor-Id", "X-Reddit-Device-Id",
      "User-Agent"] : List String).Nodup := by decide
  have hiosKeys : (["X-Reddit-DPR", "Device-Name", "X-Reddit-Device-Id",
      "User-Agent", "Client-Vendor-Id"] : List String).Nodup := by decide
  refine ⟨rfl, rfl, rfl, fun uuid i => ?_, fun uuid i j => ?_⟩
  · exact ⟨List.cons_ne_nil _ _, rfl, rfl, by fin_cases i <;> decide, rfl,
           handKeys⟩
  · exact ⟨List.cons_ne_nil _ _, rfl, rfl, by fin_cases i <;> decide, rfl,
           by fin_cases j <;> decide, rfl, rfl, hiosKeys⟩

/- ### Claim C9 (confirmed) -/

/-- C9: a response's `x-reddit-loid` value is stored under the same key,
overwriting any prior binding; any state whose mapping binds the key replays
it on the outbound request (the key differs from `Authorization`, so it is
never skipped); and the binding survives every further exchange whose
response does not carry a different loid value. -/
theorem c9_loid_echo :
    (∀ (s : OauthState) (resp : Response) (v : String), resp.loid = some v →
      hmLookup (login s (.ok resp)).2.headers_map "x-reddit-loid" = some v) ∧
    (∀ (s : OauthState) (v : String),
      hmLookup s.headers_map "x-reddit-loid" = some v →
      ("x-reddit-loid", v) ∈ (loginRequest s).headers) ∧
    (∀ (s : OauthState) (t : Transport) (v : String),
      hmLookup s.headers_map "x-reddit-loid" = some v →
      (∀ resp, t = .ok resp → resp.loid = none ∨ resp.loid = some v) →
      hmLookup (login s t).2.headers_map "x-reddit-loid" = some v) := by
  refine ⟨fun s resp v hv => ?_, fun s v hv => ?_, fun s t v hv hre => ?_⟩
  · rw [login_loid_lookup, hv]
  · unfold loginRequest buildLoginRequest
    exact List.mem_append.2 (Or.inl (List.mem_filter.2 ⟨hmLookup_mem hv, rfl⟩))
  · cases t with
    | fail => simpa [login] using hv
    | ok resp =>
      rcases hre resp rfl with h | h <;>
      · rw [login_loid_lookup, h]
        try simpa using hv

/-- Witness for `c9_loid_echo`: a concrete exchange echoing loid `xyz`; the
value is stored and appears on the next outbound request. -/
theorem c9_witness :
    hmLookup (login (Oauth.new (.android "a" 2))
        (.ok ⟨some "xyz", none⟩)).2.headers_map "x-reddit-loid" = some "xyz" ∧
    ("x-reddit-loid", "xyz") ∈
      (loginRequest (login (Oauth.new (.android "a" 2))
        (.ok ⟨some "xyz", none⟩)).2).headers :=
  ⟨c9_loid_echo.1 (Oauth.new (.android "a" 2)) ⟨some "xyz", none⟩ "xyz" rfl,
   c9_loid_echo.2.1
     (login (Oauth.new (.android "a" 2)) (.ok ⟨some "xyz", none⟩)).2 "xyz"
     (by decide)⟩

/- ### Claim C10 (confirmed) -/

/-- C10: the `x-reddit-loid` merge happens before the body is parsed and is
never rolled back: when the response carries loid `v` and the exchange then
fails, `login` returns failure with the merged entry still in the mapping. -/
theorem c10_loid_merge_survives_failure (s : OauthState) (resp : Response)
    (v : String) (hv : resp.loid = some v)
    (_hfail : (login s (.ok resp)).1 = none) :
    hmLookup (login s (.ok resp)).2.headers_map "x-reddit-loid" = some v := by
  rw [login_loid_lookup, hv]

/-- Witness for `c10_loid_merge_survives_failure`: an undecodable body with
a loid header; the call fails, the entry stays. -/
theorem c10_witness :
    hmLookup (login (Oauth.new (.ios "u" 0 0))
        (.ok ⟨some "idv", none⟩)).2.headers_map "x-reddit-loid" = some "idv" :=
  c10_loid_merge_survives_failure (Oauth.new (.ios "u" 0 0))
    ⟨some "idv", none⟩ "idv" rfl (by decide)
